import Mathlib

/-!
Shallow embedding of the task CRUD service in src/src/main.rs.

The program is a Rocket HTTP service over a MySQL table
  tasks(id INT PRIMARY KEY AUTO_INCREMENT, description TEXT NOT NULL,
        is_completed BOOLEAN NOT NULL DEFAULT false).
We embed the table as a list of rows together with the auto-increment
counter, a borrowed connection as its per-connection last-insert-id
register, and each route handler as a function of that state.  A Boolean
fault flag models whether the single SQL statement a handler executes
fails (mysql::Error); a handler that calls .unwrap() on a failed result
panics, which the Rocket transport reports as a server error.
-/

namespace TodoApp

/-- The Task struct of main.rs: `id: Option<u32>`, `description: String`,
`is_completed: bool`.  Ids are modelled as Nat; where the code performs
u64 or u32 arithmetic the reductions modulo 2 ^ 64 / 2 ^ 32 are explicit. -/
structure Task where
  id : Option Nat
  description : String
  is_completed : Bool
deriving DecidableEq, Repr

/-- One stored row of the tasks table. -/
structure Row where
  id : Nat
  description : String
  is_completed : Bool
deriving DecidableEq, Repr

/-- The tasks table: its rows in storage order plus the AUTO_INCREMENT
counter (the id the next INSERT will be assigned). -/
structure Db where
  rows : List Row
  nextId : Nat
deriving DecidableEq, Repr

/-- A borrowed pool connection.  The only connection state the program
reads is the per-connection last generated identifier
(`conn.last_insert_id()`, a u64). -/
structure Conn where
  lastInsertId : Nat
deriving DecidableEq, Repr

/-- Modulus of the u32 type. -/
def U32_MOD : Nat := 2 ^ 32

/-- Modulus of the u64 type. -/
def U64_MOD : Nat := 2 ^ 64

/-- The Rust cast `x as u32` on a u64 value: reduction modulo 2 ^ 32. -/
def u64_as_u32 (n : Nat) : Nat := n % U32_MOD

/-- A statement-execution failure of the mysql driver (mysql::Error),
surfaced by the spec as StorageError. -/
inductive DbError where
  | storage : DbError
deriving DecidableEq, Repr

/-- Outcome of a handler at the transport boundary: either the value the
handler returns, or a server error because the handler panicked on
.unwrap() of a failed statement. -/
inductive HResult (α : Type) where
  | ok : α → HResult α
  | serverError : HResult α
deriving DecidableEq, Repr

/-- Run one SQL statement whose successful result is `a`; the fault flag
says whether the driver reports an error instead. -/
def runStmt {α : Type} (fault : Bool) (a : α) : Except DbError α :=
  if fault then .error .storage else .ok a

/-- The query `SELECT id, description, is_completed FROM tasks`: all rows
in storage order. -/
def selectAll (db : Db) : List Row := db.rows

/-- The query `SELECT id, description, is_completed FROM tasks WHERE
id = :id` run through exec_first: the first matching row, if any. -/
def selectById (db : Db) (i : Nat) : Option Row :=
  db.rows.find? (fun r => r.id == i)

/-- The statement `INSERT INTO tasks (description, is_completed) VALUES
(:description, :is_completed)`: appends a row carrying the next
auto-increment id; yields the new table and the generated id.  No id
parameter exists in the statement. -/
def insertRow (db : Db) (d : String) (c : Bool) : Db × Nat :=
  ({ rows := db.rows ++ [⟨db.nextId, d, c⟩], nextId := db.nextId + 1 }, db.nextId)

/-- The statement `UPDATE tasks SET description = :description,
is_completed = :is_completed WHERE id = :id`: rewrites every row whose id
matches (zero rows affected is still success). -/
def updateRows (db : Db) (i : Nat) (d : String) (c : Bool) : Db :=
  { db with rows := db.rows.map (fun r => if r.id == i then ⟨r.id, d, c⟩ else r) }

/-- The statement `DELETE FROM tasks WHERE id = :id`. -/
def deleteRows (db : Db) (i : Nat) : Db :=
  { db with rows := db.rows.filter (fun r => !(r.id == i)) }

/-- The row-to-entity mapping every read handler performs:
`Task { id: Some(id), description, is_completed }`. -/
def rowToTask (r : Row) : Task :=
  ⟨some r.id, r.description, r.is_completed⟩

/-- Handler `GET /tasks` (list_tasks): runs selectAll and maps each row;
panics (server error) when the query fails. -/
def list_tasks (fault : Bool) (db : Db) : HResult (List Task) :=
  match runStmt fault (selectAll db) with
  | .ok rows => .ok (rows.map rowToTask)
  | .error _ => .serverError

/-- Handler `GET /tasks/<task_id>` (get_task): exec_first by id, mapping
the optional row; `.ok none` is the 404 outcome Rocket renders for a None
return, and a failed query panics (server error). -/
def get_task (fault : Bool) (db : Db) (task_id : Nat) : HResult (Option Task) :=
  match runStmt fault (selectById db task_id) with
  | .ok r => .ok (r.map rowToTask)
  | .error _ => .serverError

/-- The response of a successful create: the id placed in the Location
header `/tasks/{last_id}` and the body Task. -/
structure CreatedResp where
  location_id : Nat
  body : Task
deriving DecidableEq, Repr

/-- The exec_drop of the INSERT on a borrowed connection: on success the
table gains the row and the connection records the generated identifier
in its u64 last-insert-id register. -/
def exec_insert (fault : Bool) (db : Db) (conn : Conn) (d : String) (c : Bool) :
    Except DbError (Db × Conn) :=
  if fault then .error .storage
  else
    let p := insertRow db d c
    .ok (p.1, { conn with lastInsertId := p.2 % U64_MOD })

/-- Handler `POST /tasks` (create_task): INSERT using only description and
is_completed from the body, then `conn.last_insert_id() as u32` on the
same borrowed connection; panics (server error) when the insert fails. -/
def create_task (fault : Bool) (db : Db) (conn : Conn) (task : Task) :
    HResult (CreatedResp × Db × Conn) :=
  match exec_insert fault db conn task.description task.is_completed with
  | .error _ => .serverError
  | .ok (db', conn') =>
      let last_id := u64_as_u32 conn'.lastInsertId
      let new_task : Task := ⟨some last_id, task.description, task.is_completed⟩
      .ok (⟨last_id, new_task⟩, db', conn')

/-- Handler `PUT /tasks/<task_id>` (update_task): exec_drop of the UPDATE;
on Ok it answers with a Task built from the path id and the request body,
on Err it answers None (the 404 outcome).  The table is unchanged when
the statement fails. -/
def update_task (fault : Bool) (db : Db) (task_id : Nat) (task : Task) :
    Option Task × Db :=
  match runStmt fault (updateRows db task_id task.description task.is_completed) with
  | .ok db' => (some ⟨some task_id, task.description, task.is_completed⟩, db')
  | .error _ => (none, db)

/-- Handler `DELETE /tasks/<task_id>` (delete_task): exec_drop of the
DELETE then status NoContent; panics (server error) when the statement
fails. -/
def delete_task (fault : Bool) (db : Db) (task_id : Nat) : HResult Db :=
  match runStmt fault (deleteRows db task_id) with
  | .ok db' => .ok db'
  | .error _ => .serverError

/-- The table produced by init_db before any request: empty, with the
AUTO_INCREMENT counter at its MySQL starting value 1. -/
def init_db : Db := { rows := [], nextId := 1 }

/-- Invariants the storage engine enforces on the table: the PRIMARY KEY
makes row ids pairwise distinct, and AUTO_INCREMENT only hands out ids
that are at least the counter, so every stored id is below it. -/
def WF (db : Db) : Prop :=
  (db.rows.map Row.id).Nodup ∧ ∀ r ∈ db.rows, r.id < db.nextId

instance (db : Db) : Decidable (WF db) := by
  unfold WF; infer_instance

theorem WF_init : WF init_db := by
  constructor
  · simp [init_db]
  · intro r hr; simp [init_db] at hr

theorem WF_insertRow (db : Db) (d : String) (c : Bool) (h : WF db) :
    WF (insertRow db d c).1 := by
  obtain ⟨hnd, hlt⟩ := h
  constructor
  · simp only [insertRow, List.map_append, List.map_cons, List.map_nil]
    rw [List.nodup_append]
    refine ⟨hnd, List.nodup_singleton _, ?_⟩
    intro a ha hb
    simp only [List.mem_singleton] at hb
    subst hb
    obtain ⟨r, hr, he⟩ := List.mem_map.mp ha
    exact absurd he (Nat.ne_of_lt (hlt r hr))
  · intro r hr
    simp only [insertRow, List.mem_append, List.mem_singleton] at hr
    rcases hr with hr | rfl
    · exact Nat.lt_succ_of_lt (hlt r hr)
    · exact Nat.lt_succ_self _

theorem WF_updateRows (db : Db) (i : Nat) (d : String) (c : Bool) (h : WF db) :
    WF (updateRows db i d c) := by
  obtain ⟨hnd, hlt⟩ := h
  constructor
  · have : ((updateRows db i d c).rows.map Row.id) = db.rows.map Row.id := by
      simp only [updateRows, List.map_map]
      apply List.map_congr_left
      intro r _
      by_cases hc : r.id = i <;> simp [hc]
    rw [this]; exact hnd
  · intro r hr
    simp only [updateRows, List.mem_map] at hr
    obtain ⟨s, hs, rfl⟩ := hr
    have h2 := hlt s hs
    by_cases hc : s.id = i <;> simp [hc, updateRows] <;> omega

theorem WF_deleteRows (db : Db) (i : Nat) (h : WF db) :
    WF (deleteRows db i) := by
  obtain ⟨hnd, hlt⟩ := h
  constructor
  · exact List.Nodup.sublist ((List.filter_sublist _).map _) hnd
  · intro r hr
    exact hlt r (List.mem_of_mem_filter hr)

theorem updateRows_of_absent (db : Db) (i : Nat) (d : String) (c : Bool)
    (h : ∀ r ∈ db.rows, r.id ≠ i) : updateRows db i d c = db := by
  simp only [updateRows]
  have he : db.rows.map (fun r => if r.id == i then (⟨r.id, d, c⟩ : Row) else r)
      = db.rows.map id := by
    apply List.map_congr_left
    intro r hr
    simp [h r hr]
  rw [he, List.map_id]

theorem find?_append_right {p : Row → Bool} {l : List Row}
    (h : ∀ r ∈ l, p r = false) (l2 : List Row) :
    (l ++ l2).find? p = l2.find? p := by
  induction l with
  | nil => rfl
  | cons x xs ih =>
      have hx := h x (List.mem_cons_self x xs)
      rw [List.cons_append, List.find?_cons_of_neg _ (by simp [hx])]
      exact ih fun r hr => h r (List.mem_cons_of_mem _ hr)

theorem find?_eq_some_of_mem_nodup {l : List Row} {r : Row} {i : Nat}
    (hnd : (l.map Row.id).Nodup) (hr : r ∈ l) (hid : r.id = i) :
    l.find? (fun s => s.id == i) = some r := by
  induction l with
  | nil => cases hr
  | cons x xs ih =>
      simp only [List.map_cons, List.nodup_cons] at hnd
      rcases List.mem_cons.mp hr with rfl | hmem
      · rw [List.find?_cons_of_pos _ (by simp [hid])]
      · have hx : x.id ≠ i := by
          intro he
          exact hnd.1 (he ▸ hid ▸ List.mem_map_of_mem Row.id hmem)
        rw [List.find?_cons_of_neg _ (by simp [hx])]
        exact ih hnd.2 hmem

theorem filter_idem (p : Row → Bool) (l : List Row) :
    (l.filter p).filter p = l.filter p := by
  induction l with
  | nil => rfl
  | cons x xs ih =>
      by_cases h : p x <;> simp [List.filter_cons, h, ih]

/-- Claim C1 counterexample: on the empty table there is no row with id
5, yet Update with no statement fault does not yield the not-found
outcome: it answers a success response carrying a Task fabricated from
the path id and the request body. -/
theorem C1_counterexample :
    (∀ r ∈ init_db.rows, r.id ≠ 5) ∧
    (update_task false init_db 5 ⟨none, "x", true⟩).1 ≠ none ∧
    (update_task false init_db 5 ⟨none, "x", true⟩).1 =
      some ⟨some 5, "x", true⟩ := by
  refine ⟨?_, ?_, ?_⟩ <;> decide

/-- Claim C1 (amended): for every id with no matching row in the tasks
table, when the UPDATE statement executes without error the Update
operation yields a success response whose Task is built from the path id
and the request body, and leaves the table unchanged; the not-found
outcome never arises in that case (it arises exactly when statement
execution fails). -/
theorem C1_update_absent_id (db : Db) (task_id : Nat) (task : Task)
    (h : ∀ r ∈ db.rows, r.id ≠ task_id) :
    update_task false db task_id task =
      (some ⟨some task_id, task.description, task.is_completed⟩, db) := by
  simp [update_task, runStmt,
    updateRows_of_absent db task_id task.description task.is_completed h]

theorem C1_witness :
    (∀ r ∈ init_db.rows, r.id ≠ 7) ∧
    update_task false init_db 7 ⟨none, "w", false⟩ =
      (some ⟨some 7, "w", false⟩, init_db) :=
  ⟨by decide, C1_update_absent_id init_db 7 ⟨none, "w", false⟩ (by decide)⟩

/-- Claim C2 counterexample: when the UPDATE statement execution fails,
the handler answers none — the very absent-resource outcome used for a
missing row — rather than a distinguishable StorageError: its result type
Option Task has no failure case at all. -/
theorem C2_counterexample :
    (update_task true init_db 1 ⟨none, "x", false⟩).1 = none := by decide

/-- Claim C2 (amended): for every Update whose UPDATE statement execution
fails, the failure is swallowed: the handler answers the absent outcome
none, indistinguishable from not-found, leaves the table unchanged, and
no StorageError reaches the caller. -/
theorem C2_update_fault_is_absent (db : Db) (task_id : Nat) (task : Task) :
    update_task true db task_id task = (none, db) := rfl

/-- Claim C3: for every valid Task input, Create followed by Get with the
id Create returned yields a Task whose description and is_completed equal
the created Task fields and whose id equals the id Create returned.
Hypotheses: the table satisfies the storage-engine invariants (primary
key uniqueness, auto-increment bound) and the auto-increment counter is
below 2 ^ 32, as the INT id column guarantees. -/
theorem C3_create_then_get (db : Db) (conn : Conn) (task : Task)
    (hwf : WF db) (hlt : db.nextId < U32_MOD) :
    ∃ resp db' conn',
      create_task false db conn task = .ok (resp, db', conn') ∧
      get_task false db' resp.location_id =
        .ok (some ⟨some resp.location_id, task.description, task.is_completed⟩) ∧
      resp.body = ⟨some resp.location_id, task.description, task.is_completed⟩ := by
  obtain ⟨hnd, hbound⟩ := hwf
  have hn64 : db.nextId % U64_MOD = db.nextId :=
    Nat.mod_eq_of_lt (lt_trans hlt (by norm_num [U32_MOD, U64_MOD]))
  have hn32 : db.nextId % U32_MOD = db.nextId := Nat.mod_eq_of_lt hlt
  have hrow : ∀ r ∈ db.rows, ((fun s : Row => s.id == db.nextId) r) = false := by
    intro r hr
    simp [Nat.ne_of_lt (hbound r hr)]
  have hfind : (db.rows ++ [(⟨db.nextId, task.description, task.is_completed⟩ : Row)]).find?
      (fun s => s.id == db.nextId)
      = some ⟨db.nextId, task.description, task.is_completed⟩ := by
    rw [find?_append_right hrow]
    rw [List.find?_cons_of_pos _ (by simp)]
  refine ⟨⟨db.nextId, ⟨some db.nextId, task.description, task.is_completed⟩⟩,
    ⟨db.rows ++ [⟨db.nextId, task.description, task.is_completed⟩], db.nextId + 1⟩,
    ⟨db.nextId % U64_MOD⟩, ?_, ?_, rfl⟩
  · simp [create_task, exec_insert, insertRow, u64_as_u32, hn64, hn32]
  · simp [get_task, runStmt, selectById, hfind, rowToTask]

theorem C3_witness :
    WF init_db ∧ init_db.nextId < U32_MOD ∧
    ∃ resp db' conn',
      create_task false init_db ⟨0⟩ ⟨none, "buy milk", false⟩ = .ok (resp, db', conn') ∧
      get_task false db' resp.location_id =
        .ok (some ⟨some resp.location_id, "buy milk", false⟩) ∧
      resp.body = ⟨some resp.location_id, "buy milk", false⟩ :=
  ⟨by decide, by decide,
    C3_create_then_get init_db ⟨0⟩ ⟨none, "buy milk", false⟩ (by decide) (by decide)⟩

/-- Claim C4: for every id, Get answers the stored Task when a row with
that id exists, answers the not-found outcome when no row matches —
including on the empty table — and surfaces query failure as a server
error, an outcome distinct from not-found. -/
theorem C4_get_contract (db : Db) (task_id : Nat) :
    (∀ r, WF db → r ∈ db.rows → r.id = task_id →
        get_task false db task_id = .ok (some (rowToTask r))) ∧
    ((∀ r ∈ db.rows, r.id ≠ task_id) → get_task false db task_id = .ok none) ∧
    get_task true db task_id = .serverError ∧
    (.ok (none : Option Task) ≠ (.serverError : HResult (Option Task))) := by
  refine ⟨?_, ?_, rfl, by decide⟩
  · intro r hwf hr hid
    have hfind := find?_eq_some_of_mem_nodup hwf.1 hr hid
    simp [get_task, runStmt, selectById, hfind]
  · intro h
    have hfind : db.rows.find? (fun s => s.id == task_id) = none := by
      rw [List.find?_eq_none]
      intro r hr
      simp [h r hr]
    simp [get_task, runStmt, selectById, hfind]

theorem C4_witness :
    get_task false ⟨[⟨1, "a", true⟩], 2⟩ 1 = .ok (some ⟨some 1, "a", true⟩) ∧
    get_task false init_db 999 = .ok none ∧
    get_task true init_db 999 = .serverError := by
  refine ⟨?_, ?_, ?_⟩
  · exact (C4_get_contract ⟨[⟨1, "a", true⟩], 2⟩ 1).1 ⟨1, "a", true⟩
      (by decide) (by decide) rfl
  · exact (C4_get_contract init_db 999).2.1 (by decide)
  · exact (C4_get_contract init_db 999).2.2.1

/-- Claim C5: the id Create returns is read from the last-insert-id
register of the same borrowed connection that performed the INSERT — the
connection state exec_insert hands back, holding exactly the identifier
this insert generated — and any id supplied in the request body is
ignored: the whole outcome, the inserted row included, is independent of
it. -/
theorem C5_create_same_conn_ignores_id (db : Db) (conn : Conn) (task : Task) :
    (∀ i, create_task false db conn { task with id := i } =
          create_task false db conn task) ∧
    ∃ db' conn',
      exec_insert false db conn task.description task.is_completed = .ok (db', conn') ∧
      conn'.lastInsertId = db.nextId % U64_MOD ∧
      db'.rows = db.rows ++ [⟨db.nextId, task.description, task.is_completed⟩] ∧
      create_task false db conn task =
        .ok (⟨u64_as_u32 conn'.lastInsertId,
              ⟨some (u64_as_u32 conn'.lastInsertId),
               task.description, task.is_completed⟩⟩,
             db', conn') := by
  exact ⟨fun i => rfl, _, _, rfl, rfl, rfl, rfl⟩

/-- Claim C6: Delete is idempotent: for every id, deleting it twice in
succession succeeds with the no-body outcome both times, the table holds
no row with that id after either pass, and the second pass changes
nothing — in particular deleting a non-existent id is not an error. -/
theorem C6_delete_idempotent (db : Db) (task_id : Nat) :
    ∃ db₁ db₂,
      delete_task false db task_id = .ok db₁ ∧
      delete_task false db₁ task_id = .ok db₂ ∧
      (∀ r ∈ db₁.rows, r.id ≠ task_id) ∧
      (∀ r ∈ db₂.rows, r.id ≠ task_id) ∧
      db₂ = db₁ := by
  refine ⟨deleteRows db task_id, deleteRows (deleteRows db task_id) task_id,
    rfl, rfl, ?_, ?_, ?_⟩
  · intro r hr
    have h2 := (List.mem_filter.mp hr).2
    simpa using h2
  · intro r hr
    have h2 := (List.mem_filter.mp hr).2
    simpa using h2
  · simp [deleteRows, filter_idem]

/-- Claim C7: List on an empty table answers the empty sequence, and
for every Task, List performed after Create answers a sequence that
contains an entry equal to the created Task (the body Create returned).
Hypothesis: the auto-increment counter is below 2 ^ 32, as the INT id
column guarantees. -/
theorem C7_list_after_create (db : Db) (conn : Conn) (task : Task) (n : Nat)
    (hlt : db.nextId < U32_MOD) :
    list_tasks false ⟨[], n⟩ = .ok [] ∧
    ∃ resp db' conn' ts,
      create_task false db conn task = .ok (resp, db', conn') ∧
      list_tasks false db' = .ok ts ∧
      resp.body ∈ ts := by
  have hn64 : db.nextId % U64_MOD = db.nextId :=
    Nat.mod_eq_of_lt (lt_trans hlt (by norm_num [U32_MOD, U64_MOD]))
  have hn32 : db.nextId % U32_MOD = db.nextId := Nat.mod_eq_of_lt hlt
  refine ⟨rfl, _, _, _, _, rfl, rfl, ?_⟩
  simp [create_task, exec_insert, insertRow, u64_as_u32, hn64, hn32,
    list_tasks, runStmt, selectAll, rowToTask]

theorem C7_witness :
    init_db.nextId < U32_MOD ∧
    (list_tasks false ⟨[], 1⟩ = .ok [] ∧
     ∃ resp db' conn' ts,
       create_task false init_db ⟨0⟩ ⟨none, "buy milk", false⟩ = .ok (resp, db', conn') ∧
       list_tasks false db' = .ok ts ∧
       resp.body ∈ ts) :=
  ⟨by decide, C7_list_after_create init_db ⟨0⟩ ⟨none, "buy milk", false⟩ 1 (by decide)⟩

/-- Pool and lock events a handler performs, in source order. -/
inductive Ev where
  | lockAcquire
  | connCheckout
  | stmtExec
  | connCheckin
  | lockRelease
deriving DecidableEq, Repr

/-- Event trace shared by the five handlers of main.rs: the call
`db.pool.lock()` at entry binds a guard that lives to the end of the
function body, `get_conn()` checks a connection out while the guard is
held, the SQL statement executes, and only at scope exit is the
connection returned and the guard dropped (locals drop in reverse
declaration order, so the checkin precedes the lock release). -/
def handlerEvents : List Ev :=
  [Ev.lockAcquire, Ev.connCheckout, Ev.stmtExec, Ev.connCheckin, Ev.lockRelease]

/-- Trace of list_tasks (lines 41 to 57 of main.rs). -/
def list_tasks_events : List Ev := handlerEvents

/-- Trace of get_task. -/
def get_task_events : List Ev := handlerEvents

/-- Trace of create_task. -/
def create_task_events : List Ev := handlerEvents

/-- Trace of update_task. -/
def update_task_events : List Ev := handlerEvents

/-- Trace of delete_task. -/
def delete_task_events : List Ev := handlerEvents

/-- Whether some statement execution in the trace happens while the pool
lock is held, starting from the given number of outstanding acquires. -/
def heldAtExec : Nat → List Ev → Bool
  | _, [] => false
  | d, Ev.lockAcquire :: tr => heldAtExec (d + 1) tr
  | d, Ev.lockRelease :: tr => heldAtExec (d - 1) tr
  | d, Ev.stmtExec :: tr => decide (0 < d) || heldAtExec d tr
  | d, Ev.connCheckout :: tr => heldAtExec d tr
  | d, Ev.connCheckin :: tr => heldAtExec d tr

/-- Claim C8 counterexample: in the handlers as written the pool mutex is
not released before statement execution: the statements of list_tasks and
of get_task both run while the lock is held, so these two operations
serialize on the pool lock even when each holds its own checked-out
connection. -/
theorem C8_counterexample :
    heldAtExec 0 list_tasks_events = true ∧
    heldAtExec 0 get_task_events = true := by decide

/-- Claim C8 (amended): in every one of the five operations the pool
mutex guard spans the whole handler body: the trace begins with the lock
acquire, the statement executes while the lock is held, and the lock
release is the last event, after checkin.  Operations therefore serialize
on the pool lock across full statement execution. -/
theorem C8_lock_spans_execution :
    (heldAtExec 0 list_tasks_events = true ∧
     heldAtExec 0 get_task_events = true ∧
     heldAtExec 0 create_task_events = true ∧
     heldAtExec 0 update_task_events = true ∧
     heldAtExec 0 delete_task_events = true) ∧
    (list_tasks_events.getLast? = some Ev.lockRelease ∧
     get_task_events.getLast? = some Ev.lockRelease ∧
     create_task_events.getLast? = some Ev.lockRelease ∧
     update_task_events.getLast? = some Ev.lockRelease ∧
     delete_task_events.getLast? = some Ev.lockRelease) ∧
    list_tasks_events.head? = some Ev.lockAcquire := by decide

/-- Claim C9: a successful Update responds with a Task constructed solely
from the path id and the request body: the response is the same whatever
the table contains, and its fields equal the request fields together with
the path id. -/
theorem C9_update_response_from_request (db₁ db₂ : Db) (task_id : Nat) (task : Task) :
    (update_task false db₁ task_id task).1 = (update_task false db₂ task_id task).1 ∧
    (update_task false db₁ task_id task).1 =
      some ⟨some task_id, task.description, task.is_completed⟩ :=
  ⟨rfl, rfl⟩

/-- Claim C10: Create reads the generated identifier from the u64
last-insert-id register and casts it with `as u32`, so the id returned to
the client — in the Location id and in the body — equals the generated
identifier reduced modulo 2 ^ 32. -/
theorem C10_create_id_mod_u32 (db : Db) (conn : Conn) (task : Task) :
    ∃ resp db' conn',
      create_task false db conn task = .ok (resp, db', conn') ∧
      resp.location_id = db.nextId % 2 ^ 32 ∧
      resp.body.id = some (db.nextId % 2 ^ 32) := by
  have h : db.nextId % 18446744073709551616 % 4294967296 = db.nextId % 4294967296 :=
    Nat.mod_mod_of_dvd db.nextId ⟨4294967296, by norm_num⟩
  refine ⟨_, _, _, rfl, ?_, ?_⟩ <;>
    simp [create_task, exec_insert, insertRow, u64_as_u32, U32_MOD, U64_MOD, h]

end TodoApp
